import Mathlib

/-!
Verification of the distribution pull core of projectatomic/docker
(src/distribution/pull_v2_unix.go, both build variants).

The file shallowly embeds the four operations the claims are about:

* `detectBaseLayer` — the base-layer reconciliation algorithm
  (windows build variant, the non-trivial one);
* `openLayer` / `openLoop` — the layer descriptor's open with ordered
  URL fallback (windows build variant);
* `checkTrusted` — the trust policy gate (unix build variant, policy
  configured) and `checkTrustedNoop` (windows build variant, no policy).

External collaborators (encoding/json, the registry blob store, the
network transport, the policy engine, manifest digesting) are passed in
as function parameters, following the spec's collaborator contracts.
Types of this repository that are referenced but not present under the
sampled sources (image.RootFS accessors, the reference package) are
modelled from the spec and marked as such in their doc comments.
-/

namespace DockerPull

/-- RootFS, per the spec's data model: an ordered sequence of layer
identifiers (`DiffIDs`), an optional base-layer reference and a type
tag.  The Go struct field `Type` is rendered `typ` (`Type` is a Lean
keyword). -/
structure RootFS where
  typ : String
  DiffIDs : List String
  BaseLayer : String
  deriving Repr, DecidableEq

/-- The Go constant image.TypeLayersWithBase tagging RootFSes that
extend a shared base layer. -/
def TypeLayersWithBase : String := "layers+base"

/-- Modelled from the spec: image.RootFS.BaseLayerID is not under the
sampled sources; per the spec the base-layer identifier of a RootFS is
its `BaseLayer` reference (§8: an image with RootFS{BaseLayer="B"}
matches a manifest declaring parent="B"). -/
def baseLayerID (r : RootFS) : String := r.BaseLayer

/-- A stored image as seen through image.Store.Map(): only its RootFS
is consulted by detectBaseLayer. -/
structure Image where
  rootFS : RootFS
  deriving Repr, DecidableEq

/-- The decoded V1Compatibility metadata blob (image.V1Image): the
fields detectBaseLayer reads. -/
structure V1Image where
  ID : String
  Parent : String
  deriving Repr, DecidableEq

/-- One schema1 history entry: an embedded per-layer metadata blob. -/
structure HistoryEntry where
  V1Compatibility : String
  deriving Repr, DecidableEq

/-- A schema1 manifest, restricted to the field detectBaseLayer reads:
its ordered sequence of history entries (Go slice order, index 0
first). -/
structure Manifest where
  History : List HistoryEntry
  deriving Repr, DecidableEq

/-- The body of detectBaseLayer after the history entry has been
selected: decode the entry's V1Compatibility blob with `dec`
(abstracting json.Unmarshal, an external collaborator), reject an
empty Parent, then scan the store for an image whose RootFS is of type
layers+base with base-layer identifier equal to the declared parent.
Returns the final rootFS value together with the error (none = nil):
the Go function mutates rootFS in place and returns only an error. -/
def resolveFromEntry (dec : String → Except String V1Image)
    (is : List Image) (entry : HistoryEntry) (rootFS : RootFS) :
    RootFS × Option String :=
  match dec entry.V1Compatibility with
  | .error e => (rootFS, some e)
  | .ok v1img =>
    if v1img.Parent = "" then
      (rootFS, some ("Last layer \"" ++ v1img.ID ++
        "\" does not have a base layer reference"))
    else
      match is.find? (fun img =>
          img.rootFS.typ == TypeLayersWithBase &&
            baseLayerID img.rootFS == v1img.Parent) with
      | some img =>
        ({ rootFS with BaseLayer := img.rootFS.BaseLayer,
                       typ := TypeLayersWithBase }, none)
      | none => (rootFS, some ("Invalid base layer \"" ++ v1img.Parent ++ "\""))

/-- Embeds detectBaseLayer (windows build variant,
src/distribution/pull_v2_unix.go ll. 146-163).  The Go code indexes
m.History[len(m.History)-1], i.e. the last history entry; on an empty
history that index expression is a Go runtime panic, modelled here as
an error return leaving rootFS unchanged. -/
def detectBaseLayer (dec : String → Except String V1Image)
    (is : List Image) (m : Manifest) (rootFS : RootFS) :
    RootFS × Option String :=
  match m.History.getLast? with
  | none => (rootFS, some "runtime error: index out of range")
  | some entry => resolveFromEntry dec is entry rootFS

/-- A blob descriptor as read by the layer descriptor's open: its
media type and the ordered list of alternate source URLs
(distribution.Descriptor, restricted to the fields the embedded code
reads). -/
structure Descriptor where
  MediaType : String
  URLs : List String
  deriving Repr, DecidableEq

/-- The layer descriptor: the layer's digest and its source blob
descriptor. -/
structure V2LayerDescriptor where
  digest : String
  src : Descriptor
  deriving Repr, DecidableEq

/-- The URL fallback loop of (*v2LayerDescriptor).open (windows build
variant, ll. 185-194).  `attempt u` abstracts
transport.NewHTTPReadSeeker(http.DefaultClient, u, nil) followed by
Seek(0, os.SEEK_SET): `.ok s` is the opened stream on a successful
seek, `.error e` the seek error (after which the Go code closes and
discards the reader).  The second argument is the loop-carried Go
variable `err` (initially nil).  Result: the stream (`rsc`), the final
`err`, and — instrumentation for the fallback-ordering claims — the
URLs attempted, in order. -/
def openLoop (attempt : String → Except String String) :
    List String → Option String → Option String × Option String × List String
  | [], err => (none, err, [])
  | u :: rest, _ =>
    match attempt u with
    | .ok s => (some s, none, [u])
    | .error e =>
      let r := openLoop attempt rest (some e)
      (r.1, r.2.1, u :: r.2.2)

/-- Embeds (*v2LayerDescriptor).open (windows build variant,
ll. 174-196): with no alternate URLs, open the blob directly from the
registry blob store (abstracted as `blobs`, returning Go's
(ReadSeekCloser, error) pair); otherwise run the URL fallback loop.
The third component lists the URLs attempted, in order (empty on the
blob-store path). -/
def openLayer (blobs : String → Option String × Option String)
    (attempt : String → Except String String) (ld : V2LayerDescriptor) :
    Option String × Option String × List String :=
  if ld.src.URLs.isEmpty then
    let r := blobs ld.digest
    (r.1, r.2, [])
  else
    openLoop attempt ld.src.URLs none

/-- Modelled from the spec: the forked docker reference package is not
under the sampled sources.  Per the spec an ImageReference is a named
identity — repository name plus optional tag/digest. -/
structure Reference where
  name : String
  tag : Option String
  digest : Option String
  deriving Repr, DecidableEq

/-- Modelled from the spec: reference.Named.String renders the named
identity with its optional tag and digest. -/
def refString (r : Reference) : String :=
  r.name ++
    (match r.tag with | some t => ":" ++ t | none => "") ++
    (match r.digest with | some d => "@" ++ d | none => "")

/-- Modelled from the spec: reference.WithDigest "returns a new
reference that pins the original named reference to that digest" — the
result carries the given content digest whatever the input reference
carried. -/
def withDigest (r : Reference) (d : String) : Reference :=
  { r with digest := some d }

/-- The puller state checkTrusted touches: it records the original
reference before rewriting it. -/
structure V2Puller where
  originalRef : Option Reference
  deriving Repr, DecidableEq

/-- Embeds (*v2Puller).checkTrusted (unix build variant, ll. 86-110,
the policy-configured variant).  The policy engine call
p.policyContext.IsRunningImageAllowed(unparsed) is an external
collaborator: its verdict is passed in as the pair (allowed, perr).
unparsed.Manifest() is passed in as its result `mres` (the raw
manifest blob), and the external manifest.Digest function as
`digestOf`.  Returns the updated puller together with Go's
(reference.Named, error) result as an Except. -/
def checkTrusted (p : V2Puller) (allowed : Bool) (perr : Option String)
    (mres : Except String String) (digestOf : String → Except String String)
    (ref : Reference) : V2Puller × Except String Reference :=
  let p := { p with originalRef := some ref }
  if !allowed then
    match perr with
    | some e => (p, .error (refString ref ++ " isn't allowed: " ++ e))
    | none => (p, .error (refString ref ++ " isn't allowed"))
  else
    match perr with
    | some e => (p, .error e)
    | none =>
      match mres with
      | .error e => (p, .error e)
      | .ok mfst =>
        match digestOf mfst with
        | .error e => (p, .error e)
        | .ok dgst => (p, .ok (withDigest ref dgst))

/-- Embeds (*v2Puller).checkTrusted (windows build variant,
ll. 206-208): with no policy configured the reference is returned
unchanged with a nil error. -/
def checkTrustedNoop (ref : Reference) : Except String Reference :=
  .ok ref

/-! Concrete fixtures used by the witness and counterexample theorems. -/

/-- A concrete decoder fixture: json.Unmarshal results for three
metadata blobs, an error otherwise. -/
def decFix : String → Except String V1Image := fun s =>
  if s = "meta0" then .ok ⟨"id0", "B"⟩
  else if s = "meta1" then .ok ⟨"id1", "C"⟩
  else if s = "metaE" then .ok ⟨"idE", ""⟩
  else .error "invalid character"

/-- A concrete store fixture: one image extending base layer B. -/
def storeFix : List Image := [⟨⟨TypeLayersWithBase, [], "B"⟩⟩]

/-- A concrete RootFS fixture for the image being pulled. -/
def rfsFix : RootFS := ⟨"layers", ["d1"], ""⟩

/-- A concrete transport fixture: u2 and u3 open successfully, every
other URL fails its seek. -/
def attemptFix : String → Except String String := fun u =>
  if u = "u2" then .ok "s2"
  else if u = "u3" then .ok "s3"
  else .error ("connect: connection refused " ++ u)

/-- A concrete transport fixture where every URL fails its seek. -/
def attemptFailFix : String → Except String String := fun u =>
  .error ("connect: connection refused " ++ u)

/-- A concrete registry blob-store fixture. -/
def blobsFix : String → Option String × Option String := fun d =>
  (some ("blob " ++ d), none)

/-- C1: digest-pinning asymmetry of the trust policy gate.  The
policy-disabled variant (checkTrustedNoop) returns the original
reference unchanged; the policy-configured variant, when the engine
allows the image (allowed = true, no engine error), returns the
original named reference pinned to the manifest's canonical content
digest — the result's digest component is that digest whatever digest
the input reference carried, since `withDigest` overwrites it. -/
theorem checkTrusted_digest_pinning_asymmetry
    (p : V2Puller) (ref : Reference) (mres : Except String String)
    (digestOf : String → Except String String) (mfst d : String)
    (hm : mres = .ok mfst) (hd : digestOf mfst = .ok d) :
    checkTrustedNoop ref = Except.ok ref ∧
    (checkTrusted p true none mres digestOf ref).2
      = Except.ok (withDigest ref d) ∧
    (withDigest ref d).digest = some d := by
  subst hm
  refine ⟨rfl, ?_, rfl⟩
  simp [checkTrusted, hd]

/-- Witness for C1 at a concrete input whose reference already carries
a digest: the returned reference is pinned to the manifest digest, the
old digest discarded. -/
theorem checkTrusted_digest_pinning_asymmetry_witness :
    checkTrustedNoop ⟨"repo/img", some "latest", some "sha256:old"⟩
      = Except.ok ⟨"repo/img", some "latest", some "sha256:old"⟩ ∧
    (checkTrusted ⟨none⟩ true none (Except.ok "blob")
        (fun _ => Except.ok "sha256:new")
        ⟨"repo/img", some "latest", some "sha256:old"⟩).2
      = Except.ok (withDigest ⟨"repo/img", some "latest", some "sha256:old"⟩ "sha256:new") ∧
    (withDigest ⟨"repo/img", some "latest", some "sha256:old"⟩ "sha256:new").digest
      = some "sha256:new" :=
  checkTrusted_digest_pinning_asymmetry ⟨none⟩
    ⟨"repo/img", some "latest", some "sha256:old"⟩ (Except.ok "blob")
    (fun _ => Except.ok "sha256:new") "blob" "sha256:new" rfl rfl

/-- C6: when the policy engine reports the image as not allowed,
checkTrusted fails; the error message is the generic denial when the
engine supplied no error, and includes the engine's underlying reason
(as a suffix, hence as a substring) when it supplied one. -/
theorem checkTrusted_denied_reports_reason
    (p : V2Puller) (perr : Option String) (mres : Except String String)
    (digestOf : String → Except String String) (ref : Reference) :
    ∃ msg, (checkTrusted p false perr mres digestOf ref).2 = Except.error msg ∧
      (∀ e, perr = some e →
        msg = refString ref ++ " isn't allowed: " ++ e ∧
        ∃ s, msg = s ++ e) ∧
      (perr = none → msg = refString ref ++ " isn't allowed") := by
  cases perr with
  | none =>
    exact ⟨refString ref ++ " isn't allowed", rfl,
      fun _ he => Option.noConfusion he, fun _ => rfl⟩
  | some e0 =>
    refine ⟨refString ref ++ " isn't allowed: " ++ e0, rfl, ?_,
      fun h => Option.noConfusion h⟩
    intro e he
    cases he
    exact ⟨rfl, refString ref ++ " isn't allowed: ", by rw [String.append_assoc]⟩

/-- Witness for C6 at concrete inputs, one with an engine reason and
one without. -/
theorem checkTrusted_denied_reports_reason_witness :
    (∃ msg, (checkTrusted ⟨none⟩ false (some "signature is invalid")
        (Except.ok "blob") (fun _ => Except.ok "sha256:new")
        ⟨"repo/img", some "latest", none⟩).2 = Except.error msg ∧
      (∀ e, (some "signature is invalid" : Option String) = some e →
        msg = refString ⟨"repo/img", some "latest", none⟩ ++ " isn't allowed: " ++ e ∧
        ∃ s, msg = s ++ e) ∧
      ((some "signature is invalid" : Option String) = none →
        msg = refString ⟨"repo/img", some "latest", none⟩ ++ " isn't allowed")) ∧
    (∃ msg, (checkTrusted ⟨none⟩ false none
        (Except.ok "blob") (fun _ => Except.ok "sha256:new")
        ⟨"repo/img", some "latest", none⟩).2 = Except.error msg ∧
      (∀ e, (none : Option String) = some e →
        msg = refString ⟨"repo/img", some "latest", none⟩ ++ " isn't allowed: " ++ e ∧
        ∃ s, msg = s ++ e) ∧
      ((none : Option String) = none →
        msg = refString ⟨"repo/img", some "latest", none⟩ ++ " isn't allowed")) :=
  ⟨checkTrusted_denied_reports_reason ⟨none⟩ (some "signature is invalid")
      (Except.ok "blob") (fun _ => Except.ok "sha256:new")
      ⟨"repo/img", some "latest", none⟩,
    checkTrusted_denied_reports_reason ⟨none⟩ none
      (Except.ok "blob") (fun _ => Except.ok "sha256:new")
      ⟨"repo/img", some "latest", none⟩⟩

/-- C9: an allowed verdict accompanied by a non-nil engine error is a
failure: checkTrusted returns exactly that error and no reference, so
no digest pinning occurs. -/
theorem checkTrusted_allowed_with_error_fails
    (p : V2Puller) (e : String) (mres : Except String String)
    (digestOf : String → Except String String) (ref : Reference) :
    (checkTrusted p true (some e) mres digestOf ref).2 = Except.error e := by
  simp [checkTrusted]

/-- Decidable equality of Except values, used by the concrete witness
evaluations. -/
instance {ε α : Type} [DecidableEq ε] [DecidableEq α] :
    DecidableEq (Except ε α) := fun a b =>
  match a, b with
  | .ok x, .ok y =>
    if h : x = y then .isTrue (by rw [h])
    else .isFalse (fun hc => h (Except.ok.inj hc))
  | .ok _, .error _ => .isFalse (fun hc => Except.noConfusion hc)
  | .error _, .ok _ => .isFalse (fun hc => Except.noConfusion hc)
  | .error x, .error y =>
    if h : x = y then .isTrue (by rw [h])
    else .isFalse (fun hc => h (Except.error.inj hc))

/-- Unfolding the fallback loop one step at a URL whose seek fails:
the loop closes that reader, records the error and moves on. -/
theorem openLoop_cons_error (attempt : String → Except String String)
    (u : String) (rest : List String) (err0 : Option String) (e : String)
    (h : attempt u = .error e) :
    openLoop attempt (u :: rest) err0
      = ((openLoop attempt rest (some e)).1,
         (openLoop attempt rest (some e)).2.1,
         u :: (openLoop attempt rest (some e)).2.2) := by
  simp [openLoop, h]

/-- The fallback loop on a list whose strict prefix `pre` all fails
and whose next URL `u` succeeds: it returns u's stream with a nil
error, having attempted exactly pre ++ [u] in order — whatever the
loop-carried error was and whatever URLs follow. -/
theorem openLoop_first_success (attempt : String → Except String String)
    (f : String → String) (pre post : List String) (u s : String)
    (hpre : ∀ v ∈ pre, attempt v = .error (f v))
    (hu : attempt u = .ok s) (err0 : Option String) :
    openLoop attempt (pre ++ u :: post) err0 = (some s, none, pre ++ [u]) := by
  induction pre generalizing err0 with
  | nil => simp [openLoop, hu]
  | cons v pre ih =>
    have hv : attempt v = .error (f v) := hpre v (List.mem_cons_self v pre)
    have ih' := ih (fun w hw => hpre w (List.mem_cons_of_mem v hw)) (some (f v))
    rw [List.cons_append, openLoop_cons_error attempt v _ err0 (f v) hv, ih']
    rfl

/-- The fallback loop on a list that fails wholesale returns no
stream and the last URL's error, having attempted every URL in
order. -/
theorem openLoop_all_fail (attempt : String → Except String String)
    (f : String → String) (l : List String) (last : String)
    (hlast : l.getLast? = some last)
    (hfail : ∀ v ∈ l, attempt v = .error (f v)) (err0 : Option String) :
    openLoop attempt l err0 = (none, some (f last), l) := by
  induction l generalizing err0 with
  | nil => exact Option.noConfusion hlast
  | cons v rest ih =>
    have hv : attempt v = .error (f v) := hfail v (List.mem_cons_self v rest)
    cases rest with
    | nil =>
      obtain rfl : v = last := by simpa using hlast
      simp [openLoop, hv]
    | cons w rest' =>
      have hlast' : (w :: rest').getLast? = some last := by
        simpa [List.getLast?_cons_cons] using hlast
      have ih' := ih hlast' (fun x hx => hfail x (List.mem_cons_of_mem v hx))
        (some (f v))
      rw [openLoop_cons_error attempt v _ err0 (f v) hv, ih']

/-- C3: on a layer descriptor with a non-empty alternate-URL list,
open tries the URLs in list order; with every URL before `u` failing
its open-and-seek attempt and `u` succeeding with stream `s`, it
returns `s` with a nil error, and the URLs attempted are exactly
pre ++ [u] — the URLs in `post`, after the first success, are never
attempted. -/
theorem openLayer_fallback_first_success
    (blobs : String → Option String × Option String)
    (attempt : String → Except String String) (f : String → String)
    (dgst mt : String) (pre post : List String) (u s : String)
    (hpre : ∀ v ∈ pre, attempt v = .error (f v))
    (hu : attempt u = .ok s) :
    openLayer blobs attempt ⟨dgst, ⟨mt, pre ++ u :: post⟩⟩
      = (some s, none, pre ++ [u]) := by
  have hne : (pre ++ u :: post).isEmpty = false := by
    cases pre <;> rfl
  simp only [openLayer, hne, Bool.false_eq_true, if_false]
  exact openLoop_first_success attempt f pre post u s hpre hu none

/-- Witness for C3 at the spec's own example: URLs [u1 (fails),
u2 (succeeds), u3 (succeeds)] — the stream comes from u2 and only u1
and u2 are attempted. -/
theorem openLayer_fallback_first_success_witness :
    openLayer blobsFix attemptFix ⟨"sha256:d1", ⟨"foreign", ["u1", "u2", "u3"]⟩⟩
      = (some "s2", none, ["u1", "u2"]) :=
  openLayer_fallback_first_success blobsFix attemptFix
    (fun u => "connect: connection refused " ++ u) "sha256:d1" "foreign"
    ["u1"] ["u3"] "u2" "s2" (by decide) (by decide)

/-- C7: on a layer descriptor with a non-empty alternate-URL list all
of whose URLs fail the open-and-seek attempt, open returns no stream,
and the error is exactly the one produced by the last URL tried. -/
theorem openLayer_all_urls_fail
    (blobs : String → Option String × Option String)
    (attempt : String → Except String String) (f : String → String)
    (dgst mt : String) (urls : List String) (last : String)
    (hlast : urls.getLast? = some last)
    (hfail : ∀ v ∈ urls, attempt v = .error (f v)) :
    openLayer blobs attempt ⟨dgst, ⟨mt, urls⟩⟩
      = (none, some (f last), urls) := by
  have hne : urls.isEmpty = false := by
    cases urls with
    | nil => exact Option.noConfusion hlast
    | cons v rest => rfl
  simp only [openLayer, hne, Bool.false_eq_true, if_false]
  exact openLoop_all_fail attempt f urls last hlast hfail none

/-- Witness for C7 at a concrete input: both URLs fail, the reported
error is the second (last) URL's. -/
theorem openLayer_all_urls_fail_witness :
    openLayer blobsFix attemptFailFix ⟨"sha256:d1", ⟨"foreign", ["w1", "w2"]⟩⟩
      = (none, some ("connect: connection refused " ++ "w2"), ["w1", "w2"]) :=
  openLayer_all_urls_fail blobsFix attemptFailFix
    (fun u => "connect: connection refused " ++ u) "sha256:d1" "foreign"
    ["w1", "w2"] "w2" (by decide) (by decide)

/-- C2 (counterexample): the claim says the resolver obtains the
declared parent by decoding the first history entry (index 0).  On a
two-entry manifest whose first entry decodes to parent B (matched by
the store) and whose second entry decodes to parent C (unmatched), the
resolver's result differs from what processing the index-0 entry
yields: the code decodes m.History[len(m.History)-1], the last
entry. -/
theorem detectBaseLayer_not_first_entry :
    (Manifest.mk [⟨"meta0"⟩, ⟨"meta1"⟩]).History.head? = some ⟨"meta0"⟩ ∧
    detectBaseLayer decFix storeFix ⟨[⟨"meta0"⟩, ⟨"meta1"⟩]⟩ rfsFix
      ≠ resolveFromEntry decFix storeFix ⟨"meta0"⟩ rfsFix := by
  decide

/-- C2 (amended): the resolver obtains the declared parent identifier
by decoding the embedded per-layer metadata of the last history entry
(index len-1 of the sequence): its whole result is that of processing
the entry m.History.getLast?. -/
theorem detectBaseLayer_uses_last_entry
    (dec : String → Except String V1Image) (is : List Image)
    (m : Manifest) (r : RootFS) (entry : HistoryEntry)
    (h : m.History.getLast? = some entry) :
    detectBaseLayer dec is m r = resolveFromEntry dec is entry r := by
  simp [detectBaseLayer, h]

/-- Witness for the amended C2 at the two-entry manifest: the result
is that of processing the second (last) entry. -/
theorem detectBaseLayer_uses_last_entry_witness :
    detectBaseLayer decFix storeFix ⟨[⟨"meta0"⟩, ⟨"meta1"⟩]⟩ rfsFix
      = resolveFromEntry decFix storeFix ⟨"meta1"⟩ rfsFix :=
  detectBaseLayer_uses_last_entry decFix storeFix ⟨[⟨"meta0"⟩, ⟨"meta1"⟩]⟩
    rfsFix ⟨"meta1"⟩ (by decide)

/-- C5: when the decoded metadata's declared parent identifier is the
empty string, the resolver fails with the malformed-manifest error
naming the offending layer, and it does not scan the local image
store: its result is the same whatever the store holds. -/
theorem detectBaseLayer_empty_parent
    (dec : String → Except String V1Image) (is : List Image)
    (m : Manifest) (r : RootFS) (entry : HistoryEntry) (v1 : V1Image)
    (hlast : m.History.getLast? = some entry)
    (hdec : dec entry.V1Compatibility = .ok v1)
    (hp : v1.Parent = "") :
    detectBaseLayer dec is m r
      = (r, some ("Last layer \"" ++ v1.ID ++
          "\" does not have a base layer reference")) ∧
    ∀ is' : List Image, detectBaseLayer dec is' m r = detectBaseLayer dec is m r := by
  have key : ∀ s : List Image, detectBaseLayer dec s m r
      = (r, some ("Last layer \"" ++ v1.ID ++
          "\" does not have a base layer reference")) := by
    intro s
    simp [detectBaseLayer, resolveFromEntry, hlast, hdec, hp]
  exact ⟨key is, fun is' => (key is').trans (key is).symm⟩

/-- Witness for C5 at a concrete input with an empty declared parent,
over two different stores. -/
theorem detectBaseLayer_empty_parent_witness :
    (detectBaseLayer decFix storeFix ⟨[⟨"metaE"⟩]⟩ rfsFix
      = (rfsFix, some ("Last layer \"" ++ "idE" ++
          "\" does not have a base layer reference")) ∧
    ∀ is' : List Image, detectBaseLayer decFix is' ⟨[⟨"metaE"⟩]⟩ rfsFix
      = detectBaseLayer decFix storeFix ⟨[⟨"metaE"⟩]⟩ rfsFix) :=
  detectBaseLayer_empty_parent decFix storeFix ⟨[⟨"metaE"⟩]⟩ rfsFix
    ⟨"metaE"⟩ ⟨"idE", ""⟩ (by decide) (by decide) rfl

/-- C4: with a non-empty declared parent matched by no stored image
(no image of type layers+base whose base-layer identifier equals the
parent), the resolver fails and its error message names the missing
parent identifier — the message contains it as a substring. -/
theorem detectBaseLayer_unresolved_names_parent
    (dec : String → Except String V1Image) (is : List Image)
    (m : Manifest) (r : RootFS) (entry : HistoryEntry) (v1 : V1Image)
    (hlast : m.History.getLast? = some entry)
    (hdec : dec entry.V1Compatibility = .ok v1)
    (hne : v1.Parent ≠ "")
    (hnomatch : ∀ img ∈ is, ¬(img.rootFS.typ = TypeLayersWithBase ∧
        baseLayerID img.rootFS = v1.Parent)) :
    ∃ msg, detectBaseLayer dec is m r = (r, some msg) ∧
      ∃ s t, msg = s ++ v1.Parent ++ t := by
  have hfind : is.find? (fun img =>
      img.rootFS.typ == TypeLayersWithBase &&
        baseLayerID img.rootFS == v1.Parent) = none := by
    rw [List.find?_eq_none]
    intro img hmem hmatch
    rw [Bool.and_eq_true, beq_iff_eq, beq_iff_eq] at hmatch
    exact hnomatch img hmem hmatch
  refine ⟨"Invalid base layer \"" ++ v1.Parent ++ "\"", ?_,
    "Invalid base layer \"", "\"", rfl⟩
  simp [detectBaseLayer, resolveFromEntry, hlast, hdec, hne, hfind]

/-- Witness for C4: parent C is declared, the store only holds an
image based on B, and the error names C. -/
theorem detectBaseLayer_unresolved_names_parent_witness :
    ∃ msg, detectBaseLayer decFix storeFix ⟨[⟨"meta1"⟩]⟩ rfsFix
      = (rfsFix, some msg) ∧ ∃ s t, msg = s ++ "C" ++ t :=
  detectBaseLayer_unresolved_names_parent decFix storeFix ⟨[⟨"meta1"⟩]⟩
    rfsFix ⟨"meta1"⟩ ⟨"id1", "C"⟩ (by decide) (by decide) (by decide) (by decide)

/-- C8: when some stored image has RootFS type layers+base and
base-layer identifier equal to the declared parent, the resolver
succeeds, and the result's RootFS has BaseLayer set to the matched
image's BaseLayer and its type set to layers+base. -/
theorem detectBaseLayer_match_propagates
    (dec : String → Except String V1Image) (is : List Image)
    (m : Manifest) (r : RootFS) (entry : HistoryEntry) (v1 : V1Image)
    (hlast : m.History.getLast? = some entry)
    (hdec : dec entry.V1Compatibility = .ok v1)
    (hne : v1.Parent ≠ "")
    (hex : ∃ img ∈ is, img.rootFS.typ = TypeLayersWithBase ∧
        baseLayerID img.rootFS = v1.Parent) :
    ∃ img ∈ is, img.rootFS.typ = TypeLayersWithBase ∧
      baseLayerID img.rootFS = v1.Parent ∧
      detectBaseLayer dec is m r
        = ({ r with BaseLayer := img.rootFS.BaseLayer,
                    typ := TypeLayersWithBase }, none) := by
  have hsome : (is.find? (fun img =>
      img.rootFS.typ == TypeLayersWithBase &&
        baseLayerID img.rootFS == v1.Parent)).isSome := by
    rw [List.find?_isSome]
    obtain ⟨img, hmem, h1, h2⟩ := hex
    exact ⟨img, hmem, by rw [Bool.and_eq_true, beq_iff_eq, beq_iff_eq]; exact ⟨h1, h2⟩⟩
  obtain ⟨img0, hfind⟩ := Option.isSome_iff_exists.mp hsome
  have hmem0 : img0 ∈ is := List.mem_of_find?_eq_some hfind
  have hp0 := List.find?_some hfind
  rw [Bool.and_eq_true, beq_iff_eq, beq_iff_eq] at hp0
  refine ⟨img0, hmem0, hp0.1, hp0.2, ?_⟩
  simp [detectBaseLayer, resolveFromEntry, hlast, hdec, hne, hfind]

/-- Witness for C8 at the spec's own example: the store holds an image
with RootFS{type layers+base, BaseLayer B} and the manifest declares
parent B; the result propagates B and the layers+base type. -/
theorem detectBaseLayer_match_propagates_witness :
    ∃ img ∈ storeFix, img.rootFS.typ = TypeLayersWithBase ∧
      baseLayerID img.rootFS = V1Image.Parent ⟨"id0", "B"⟩ ∧
      detectBaseLayer decFix storeFix ⟨[⟨"meta0"⟩]⟩ rfsFix
        = ({ rfsFix with BaseLayer := img.rootFS.BaseLayer,
                         typ := TypeLayersWithBase }, none) :=
  detectBaseLayer_match_propagates decFix storeFix ⟨[⟨"meta0"⟩]⟩ rfsFix
    ⟨"meta0"⟩ ⟨"id0", "B"⟩ (by decide) (by decide) (by decide)
    ⟨⟨⟨TypeLayersWithBase, [], "B"⟩⟩, by decide, by decide, by decide⟩

/-- C10 (frame property): detectBaseLayer never changes any RootFS
field other than BaseLayer and typ — DiffIDs is always preserved —
and on every error return (empty history, decode error, empty parent,
or no matching stored image) the RootFS is returned completely
unchanged. -/
theorem detectBaseLayer_frame
    (dec : String → Except String V1Image) (is : List Image)
    (m : Manifest) (r : RootFS) :
    (detectBaseLayer dec is m r).1.DiffIDs = r.DiffIDs ∧
    ((detectBaseLayer dec is m r).2.isSome → (detectBaseLayer dec is m r).1 = r) := by
  unfold detectBaseLayer resolveFromEntry
  split
  · exact ⟨rfl, fun _ => rfl⟩
  · split
    · exact ⟨rfl, fun _ => rfl⟩
    · split
      · exact ⟨rfl, fun _ => rfl⟩
      · split
        · exact ⟨rfl, fun h => absurd h (by simp)⟩
        · exact ⟨rfl, fun _ => rfl⟩

/-- Witness for C10 at a concrete erroring input: DiffIDs preserved
and the RootFS unchanged on the error return. -/
theorem detectBaseLayer_frame_witness :
    (detectBaseLayer decFix storeFix ⟨[⟨"meta1"⟩]⟩ rfsFix).1.DiffIDs
      = rfsFix.DiffIDs ∧
    ((detectBaseLayer decFix storeFix ⟨[⟨"meta1"⟩]⟩ rfsFix).2.isSome →
      (detectBaseLayer decFix storeFix ⟨[⟨"meta1"⟩]⟩ rfsFix).1 = rfsFix) :=
  detectBaseLayer_frame decFix storeFix ⟨[⟨"meta1"⟩]⟩ rfsFix

end DockerPull
